import Mathlib

/-!
Verification of the RehabiriServer session-lifecycle subsystem.

The definitions below are a shallow embedding of the JavaScript source:
MongoDB documents become Lean structures, queries become decidable
predicates over those structures, `.sort` becomes `List.mergeSort` with the
comparator induced by the sort specification, and the aggregation pipeline
for earnings becomes an explicit group-by over the filtered list.  Dates and
times are the stored `YYYY-MM-DD` / `HH:MM` strings, compared
lexicographically exactly as MongoDB compares BSON strings.
-/

namespace Rehabiri

/-- A therapy session document (`src/models/Session.js`).  `amount` is a
nullable number (`default: null`), modelled as `Option Int`. -/
structure Session where
  userId : String
  patientId : String
  patientName : String
  date : String
  time : String
  notes : String
  completed : Bool
  cancelled : Bool
  amount : Option Int
deriving DecidableEq, Repr

/-! ### Lexicographic comparators

A MongoDB sort specification `{k₁: ±1, k₂: ±1}` orders documents by the
first key (descending when `-1`, via `OrderDual`), breaking ties by the
second.  `lexLE` is that comparator on key pairs. -/

/-- Two-level lexicographic "less or equal" as a boolean comparator. -/
def lexLE {γ δ : Type} [LinearOrder γ] [LinearOrder δ] (x y : γ × δ) : Bool :=
  decide (x.1 < y.1) || (decide (x.1 = y.1) && decide (x.2 ≤ y.2))

theorem lexLE_trans {γ δ : Type} [LinearOrder γ] [LinearOrder δ]
    (x y z : γ × δ) (hxy : lexLE x y) (hyz : lexLE y z) : lexLE x z := by
  simp only [lexLE, Bool.or_eq_true, Bool.and_eq_true, decide_eq_true_eq] at *
  rcases hxy with h1 | ⟨h1, h1'⟩ <;> rcases hyz with h2 | ⟨h2, h2'⟩
  · exact Or.inl (lt_trans h1 h2)
  · exact Or.inl (h2 ▸ h1)
  · exact Or.inl (h1 ▸ h2)
  · exact Or.inr ⟨h1.trans h2, le_trans h1' h2'⟩

theorem lexLE_total {γ δ : Type} [LinearOrder γ] [LinearOrder δ]
    (x y : γ × δ) : lexLE x y || lexLE y x := by
  simp only [lexLE, Bool.or_eq_true, Bool.and_eq_true, decide_eq_true_eq]
  rcases lt_trichotomy x.1 y.1 with h | h | h
  · exact Or.inl (Or.inl h)
  · rcases le_total x.2 y.2 with h' | h'
    · exact Or.inl (Or.inr ⟨h, h'⟩)
    · exact Or.inr (Or.inr ⟨h.symm, h'⟩)
  · exact Or.inr (Or.inl h)

/-- `.sort({ date: -1, time: 1 })`: date descending, then time ascending. -/
def pastLE (a b : Session) : Bool :=
  lexLE (OrderDual.toDual a.date, a.time) (OrderDual.toDual b.date, b.time)

/-- `.sort({ date: 1, time: 1 })`: date ascending, then time ascending. -/
def dtLE (a b : Session) : Bool :=
  lexLE (a.date, a.time) (b.date, b.time)

/-- `.sort({ time: 1 })`: time ascending. -/
def timeLE (a b : Session) : Bool :=
  decide (a.time ≤ b.time)

/-! ### Boolean string comparison

MongoDB compares BSON strings lexicographically; we implement the comparison
on the character list so that it evaluates on concrete inputs (Lean's
`String.ltb` is defined by well-founded recursion and does not reduce). -/

/-- Lexicographic strictly-less on strings, via the character list. -/
def strLt (a b : String) : Bool := decide (a.toList < b.toList)

/-- Lexicographic less-or-equal on strings, via the character list. -/
def strLe (a b : String) : Bool := decide (a.toList ≤ b.toList)

/-! ### Session classifier queries (`src/routes/sessions.js`) -/

/-- Default branch of the `GET /past` query: completed sessions of any date,
plus unmarked (neither completed nor cancelled) sessions dated before
today. -/
def pastDefaultMatch (uid today : String) (s : Session) : Bool :=
  decide (s.userId = uid) &&
    (s.completed || (strLt s.date today && !s.completed && !s.cancelled))

/-- `includeCancelled=true` branch of the `GET /past` query: additionally
admits cancelled sessions of any date. -/
def pastIncludeCancelledMatch (uid today : String) (s : Session) : Bool :=
  decide (s.userId = uid) &&
    (s.completed || s.cancelled ||
      (strLt s.date today && !s.completed && !s.cancelled))

/-- `GET /past`: filter by the branch selected by `includeCancelled`, then
sort by date descending, time ascending. -/
def getPastSessions (db : List Session) (uid today : String)
    (includeCancelled : Option String) : List Session :=
  let q := if includeCancelled = some "true" then pastIncludeCancelledMatch uid today
           else pastDefaultMatch uid today
  (db.filter q).mergeSort pastLE

/-- `GET /today` query: the user's sessions dated exactly today, any flags. -/
def todayMatch (uid today : String) (s : Session) : Bool :=
  decide (s.userId = uid) && decide (s.date = today)

/-- `GET /today`: filter to today's sessions, sort by time ascending. -/
def getTodaySessions (db : List Session) (uid today : String) : List Session :=
  (db.filter (todayMatch uid today)).mergeSort timeLE

/-- `GET /upcoming` query: `date ≥ tomorrow`, not completed, not cancelled.
The handler computes `tomorrow` as the ISO date string of the day after
today; it is passed here as a parameter. -/
def upcomingMatch (uid tomorrow : String) (s : Session) : Bool :=
  decide (s.userId = uid) && strLe tomorrow s.date &&
    !s.completed && !s.cancelled

/-- `GET /upcoming`: filter, then sort by date ascending, time ascending. -/
def getUpcomingSessions (db : List Session) (uid tomorrow : String) : List Session :=
  (db.filter (upcomingMatch uid tomorrow)).mergeSort dtLE

/-! ### Query builder (`src/utils/databaseUtils.js`) -/

/-- The optional filter parameters accepted by `buildSessionFilterQuery`;
`completed` and `includeCancelled` arrive as query-string values. -/
structure SessionFilters where
  patientId : Option String
  startDate : Option String
  endDate : Option String
  completed : Option String
  includeCancelled : Option String
deriving Repr

/-- The emitted MongoDB query object: the fields that may be constrained,
`none` meaning "no constraint". -/
structure SessionQuery where
  userId : String
  patientId : Option String
  completed : Option Bool
  cancelled : Option Bool
  dateGte : Option String
  dateLte : Option String
deriving DecidableEq, Repr

/-- JavaScript truthiness of an optional string (absent and `""` are falsy). -/
def truthyStr : Option String → Bool
  | none => false
  | some v => !(decide (v = ""))

/-- `buildDateRangeQuery`: emit `$gte`/`$lte` bounds for the truthy dates. -/
def buildDateRangeQuery (startDate endDate : Option String) :
    Option String × Option String :=
  (if truthyStr startDate then startDate else none,
   if truthyStr endDate then endDate else none)

/-- `buildSessionFilterQuery`: owner match, truthy patient match, `completed`
match when the parameter is present (compared against the literal string
`"true"`), `cancelled = false` exactly when `includeCancelled = "false"`
(both `"true"` and absence emit no cancellation constraint), plus the date
range. -/
def buildSessionFilterQuery (userId : String) (f : SessionFilters) :
    SessionQuery :=
  { userId := userId
    patientId := if truthyStr f.patientId then f.patientId else none
    completed := match f.completed with
      | none => none
      | some c => some (decide (c = "true"))
    cancelled := if f.includeCancelled = some "false" then some false else none
    dateGte := (buildDateRangeQuery f.startDate f.endDate).1
    dateLte := (buildDateRangeQuery f.startDate f.endDate).2 }

/-- MongoDB evaluation of an emitted query against a stored session:
conjunction of the present constraints. -/
def matchesQuery (q : SessionQuery) (s : Session) : Bool :=
  decide (s.userId = q.userId) &&
  (match q.patientId with | none => true | some p => decide (s.patientId = p)) &&
  (match q.completed with | none => true | some c => s.completed == c) &&
  (match q.cancelled with | none => true | some c => s.cancelled == c) &&
  (match q.dateGte with | none => true | some lo => strLe lo s.date) &&
  (match q.dateLte with | none => true | some hi => strLe s.date hi)

/-- Filters with every parameter absent. -/
def noFilters : SessionFilters :=
  { patientId := none, startDate := none, endDate := none
    completed := none, includeCancelled := none }

/-! ### Earnings aggregation (`buildEarningsPipeline`, `src/routes/earnings.js`) -/

/-- Numeric value of a run of decimal digit characters. -/
def digitsVal (cs : List Char) : Nat :=
  cs.foldl (fun acc c => acc * 10 + (c.toNat - 48)) 0

/-- `$year` of `$dateFromString` on a stored `YYYY-MM-DD` date string. -/
def parseYear (d : String) : Nat := digitsVal (d.toList.take 4)

/-- `$month` of `$dateFromString` on a stored `YYYY-MM-DD` date string. -/
def parseMonth (d : String) : Nat := digitsVal ((d.toList.drop 5).take 2)

/-- The `$group` key of the earnings pipeline: calendar year and month parsed
from the stored date string. -/
def monthKey (s : Session) : Nat × Nat := (parseYear s.date, parseMonth s.date)

/-- `amount: { $exists: true, $gt: 0 }`: present and strictly positive. -/
def amountPos : Option Int → Bool
  | some a => decide (0 < a)
  | none => false

/-- The optional inclusive date bounds of the `$match` stage. -/
def inDateBounds (startDate endDate : Option String) (d : String) : Bool :=
  (match startDate with | none => true | some lo => strLe lo d) &&
  (match endDate with | none => true | some hi => strLe d hi)

/-- A BSON id value as far as the aggregation `$match` is concerned: the
schema types stored ids `ObjectId`, while a value taken straight from the
JWT payload is a string.  MongoDB equality matches are BSON-type-sensitive,
so the two kinds never compare equal. -/
inductive BsonId
  | objectId (hex : String)
  | str (v : String)
deriving DecidableEq, Repr

/-- The stored `userId` of a session as BSON: every cast write path
(`save`, `insertMany`) stores it with its schema type `ObjectId`. -/
def storedUserId (s : Session) : BsonId := BsonId.objectId s.userId

/-- The `$match` stage of `buildEarningsPipeline`: owner, `completed: true`,
positive amount, optional date bounds.  `GET /earnings/monthly` executes the
pipeline with `Session.aggregate`, which Mongoose does not cast, so the
owner clause compares the raw JWT string `req.userId` against the
ObjectId-typed stored value. -/
def earningsMatch (uid : String) (startDate endDate : Option String)
    (s : Session) : Bool :=
  decide (storedUserId s = BsonId.str uid) && s.completed &&
    amountPos s.amount && inDateBounds startDate endDate s.date

/-- `$sort: { '_id.year': -1, '_id.month': -1 }` on group keys. -/
def keyLE (k l : Nat × Nat) : Bool :=
  lexLE (OrderDual.toDual k.1, OrderDual.toDual k.2)
        (OrderDual.toDual l.1, OrderDual.toDual l.2)

/-- One output document of the `$group` stage. -/
structure EarningsGroup where
  year : Nat
  month : Nat
  totalEarnings : Int
  sessionCount : Nat
deriving DecidableEq, Repr

/-- The group document for key `k` over the matched sessions `q`. -/
def groupFor (q : List Session) (k : Nat × Nat) : EarningsGroup :=
  let grp := q.filter (fun s => decide (monthKey s = k))
  { year := k.1, month := k.2
    totalEarnings := (grp.map (fun s => s.amount.getD 0)).sum
    sessionCount := grp.length }

/-- `GET /earnings/monthly`: match, group by calendar year/month, sum and
count, sort by year then month descending.  A key appears exactly when some
matched session has it, so empty months produce no group. -/
def monthlyEarnings (db : List Session) (uid : String)
    (startDate endDate : Option String) : List EarningsGroup :=
  let q := db.filter (earningsMatch uid startDate endDate)
  (((q.map monthKey).dedup).mergeSort keyLE).map (groupFor q)

/-! ### Single-month earnings detail (`GET /earnings/monthly/:year/:month`) -/

/-- Gregorian leap-year test, as `new Date(year, month, 0).getDate()`
computes it. -/
def isLeapYear (y : Nat) : Bool :=
  (decide (y % 4 = 0) && !(decide (y % 100 = 0))) || decide (y % 400 = 0)

/-- Number of days of month `m` (1-12) in year `y`:
`new Date(year, month, 0).getDate()`. -/
def daysInMonth (y m : Nat) : Nat :=
  if m = 2 then (if isLeapYear y then 29 else 28)
  else if m = 4 ∨ m = 6 ∨ m = 9 ∨ m = 11 then 30
  else 31

/-- Two-digit zero-padded decimal, as in the date part of `toISOString`. -/
def pad2 (n : Nat) : String := if n < 10 then "0" ++ toString n else toString n

/-- Four-digit zero-padded decimal year. -/
def pad4 (n : Nat) : String :=
  if n < 10 then "000" ++ toString n
  else if n < 100 then "00" ++ toString n
  else if n < 1000 then "0" ++ toString n
  else toString n

/-- The `YYYY-MM-DD` string of a calendar day (`toISOString().split('T')[0]`
of a date constructed at that day, with the server clock in UTC). -/
def isoDate (y m d : Nat) : String := pad4 y ++ "-" ++ pad2 m ++ "-" ++ pad2 d

/-- The find condition of the detail handler: owner, `completed: true`,
non-null positive amount, date within the inclusive string range. -/
def detailMatch (uid lo hi : String) (s : Session) : Bool :=
  decide (s.userId = uid) && s.completed && amountPos s.amount &&
    strLe lo s.date && strLe s.date hi

/-- The response of the detail handler. -/
structure MonthlyDetail where
  totalEarnings : Int
  sessionCount : Nat
  sessions : List Session
deriving Repr

/-- `GET /earnings/monthly/:year/:month`: filter the owner's completed,
positively-amounted sessions between the first and last day of the month,
sort by date then time ascending, and total them (`amount || 0`). -/
def monthlyDetail (db : List Session) (uid : String) (year month : Nat) :
    MonthlyDetail :=
  let lo := isoDate year month 1
  let hi := isoDate year month (daysInMonth year month)
  let sessions := (db.filter (detailMatch uid lo hi)).mergeSort dtLE
  { totalEarnings := (sessions.map (fun s => s.amount.getD 0)).sum
    sessionCount := sessions.length
    sessions := sessions }

/-! ### Bulk close (`PatientService.closeAllUpcomingSessions`) -/

/-- The `updateMany` filter: the patient's open (neither completed nor
cancelled) sessions of this user. -/
def openForPatient (pid uid : String) (s : Session) : Bool :=
  decide (s.patientId = pid) && decide (s.userId = uid) &&
    !s.completed && !s.cancelled

/-- `Session.updateMany(filter, update)`: apply `f` to every stored document
matching `q`; `modifiedCount` counts the matched documents that the update
actually changed. -/
def updateMany (q : Session → Bool) (f : Session → Session)
    (db : List Session) : List Session × Nat :=
  (db.map (fun s => if q s then f s else s),
   (db.filter (fun s => q s && decide (f s ≠ s))).length)

/-- `closeAllUpcomingSessions`: `$set { cancelled: true, amount: 0 }` on all
open sessions of the patient, returning `modifiedCount`. -/
def closeAllUpcomingSessions (db : List Session) (pid uid : String) :
    List Session × Nat :=
  updateMany (openForPatient pid uid)
    (fun s => { s with cancelled := true, amount := some 0 }) db

/-! ### Patient creation validation (`validationUtils`, `src/routes/patients.js`) -/

/-- A stored patient document (`src/models/Patient.js`); `id` is the
generated ObjectId. -/
structure Patient where
  id : String
  userId : String
  name : String
  contactNumber : Option String
  age : Int
  gender : String
deriving DecidableEq, Repr

/-- The request body of `POST /patients` (JSON values as strings). -/
structure PatientBody where
  name : String
  contactNumber : Option String
  age : String
  gender : String
deriving Repr

/-- JavaScript `String.prototype.trim`, on the character list. -/
def jsTrim (s : String) : List Char :=
  ((s.toList.dropWhile Char.isWhitespace).reverse.dropWhile
    Char.isWhitespace).reverse

/-- `validateRequiredFields` marks a string field missing when it is falsy
or trims to the empty string. -/
def missingRequired (v : String) : Bool :=
  decide (v = "") || decide (jsTrim v = [])

/-- Optional leading sign of `parseInt`. -/
def parseSigned : List Char → Int × List Char
  | '-' :: r => (-1, r)
  | '+' :: r => (1, r)
  | r => (1, r)

/-- `parseInt(s, 10)`: ignore surrounding whitespace, optional sign, then
the longest decimal digit prefix; no digit yields `NaN` (here `none`). -/
def parseIntJS (s : String) : Option Int :=
  match (parseSigned (jsTrim s)).2.takeWhile Char.isDigit with
  | [] => none
  | ds => some ((parseSigned (jsTrim s)).1 * (digitsVal ds : Int))

/-- `isValidAge`: `parseInt(age, 10)` is a number in `[0, 150]`. -/
def isValidAge (age : String) : Bool :=
  match parseIntJS age with
  | none => false
  | some n => decide (0 ≤ n) && decide (n ≤ 150)

/-- `isValidGender`: one of the three enumerated values. -/
def isValidGender (g : String) : Bool :=
  decide (g = "male") || decide (g = "female") || decide (g = "other")

/-- The validation failures of the create-patient route. -/
inductive PatientError
  | missingFields
  | invalidAge
  | invalidGender
deriving DecidableEq, Repr

/-- `POST /patients`: required-fields check, then age and gender validation,
each before any persistence; on success `PatientService.createPatient`
appends the patient (trimmed name, `parseInt`ed age) under a fresh id. -/
def createPatientHandler (db : List Patient) (uid newId : String)
    (b : PatientBody) : List Patient × Option PatientError :=
  if missingRequired b.name || missingRequired b.age || missingRequired b.gender then
    (db, some PatientError.missingFields)
  else if !(isValidAge b.age) then
    (db, some PatientError.invalidAge)
  else if !(isValidGender b.gender) then
    (db, some PatientError.invalidGender)
  else
    (db ++ [{ id := newId, userId := uid
              name := String.mk (jsTrim b.name)
              contactNumber := b.contactNumber.map (fun c => String.mk (jsTrim c))
              age := (parseIntJS b.age).getD 0
              gender := b.gender }], none)

/-! ### Session creation (`POST /sessions`, `POST /sessions/bulk`) -/

/-- The request body of a session creation (single request or one bulk
element).  `notes`/`completed`/`cancelled`/`amount` distinguish absent keys
from present falsy values. -/
structure SessionBody where
  patientId : String
  patientName : String
  date : String
  time : String
  notes : Option String
  completed : Option Bool
  cancelled : Option Bool
  amount : Option Int
deriving Repr

/-- `x || ''` on an optional string. -/
def jsOrEmpty : Option String → String
  | none => ""
  | some v => if v = "" then "" else v

/-- `x || false` on an optional boolean. -/
def jsOrFalse : Option Bool → Bool
  | none => false
  | some b => b

/-- `amount || null`: absent, `null` and `0` all store `null`. -/
def jsOrNull : Option Int → Option Int
  | none => none
  | some v => if v = 0 then none else some v

/-- The stored document built by both creation handlers. -/
def sessionDocOf (uid : String) (b : SessionBody) : Session :=
  { userId := uid, patientId := b.patientId, patientName := b.patientName
    date := b.date, time := b.time
    notes := jsOrEmpty b.notes
    completed := jsOrFalse b.completed
    cancelled := jsOrFalse b.cancelled
    amount := jsOrNull b.amount }

/-- The creation failures. -/
inductive SessionError
  | missingFields
  | patientNotFound
deriving DecidableEq, Repr

/-- JS truthiness of the required string fields. -/
def jsTruthy (v : String) : Bool := !(decide (v = ""))

/-- `POST /sessions`: required fields, ownership check of the patient, then
store the constructed document. -/
def createSessionHandler (patients : List Patient) (uid : String)
    (b : SessionBody) : Except SessionError Session :=
  if !(jsTruthy b.patientId) || !(jsTruthy b.patientName) ||
      !(jsTruthy b.date) || !(jsTruthy b.time) then
    Except.error SessionError.missingFields
  else if !(patients.any (fun p => decide (p.id = b.patientId) &&
      decide (p.userId = uid))) then
    Except.error SessionError.patientNotFound
  else
    Except.ok (sessionDocOf uid b)

/-- `POST /sessions/bulk`: non-empty array, required fields on every
element, every distinct referenced patient owned by the user, then store
all documents. -/
def createSessionsBulkHandler (patients : List Patient) (uid : String)
    (bs : List SessionBody) : Except SessionError (List Session) :=
  if bs.isEmpty then Except.error SessionError.missingFields
  else if bs.any (fun b => !(jsTruthy b.patientId) || !(jsTruthy b.patientName) ||
      !(jsTruthy b.date) || !(jsTruthy b.time)) then
    Except.error SessionError.missingFields
  else if (patients.filter (fun p =>
      decide (p.id ∈ (bs.map (fun b => b.patientId)).dedup) &&
      decide (p.userId = uid))).length ≠
        (bs.map (fun b => b.patientId)).dedup.length then
    Except.error SessionError.patientNotFound
  else
    Except.ok (bs.map (sessionDocOf uid))

/-! ### Session update (`PUT /sessions/:id`) -/

/-- The request body of a session update: every key optional; for `amount`
the present value may itself be `null`. -/
structure UpdateBody where
  patientId : Option String
  patientName : Option String
  date : Option String
  time : Option String
  notes : Option String
  completed : Option Bool
  cancelled : Option Bool
  amount : Option (Option Int)
deriving Repr

/-- `if (v) session.field = v`: overwrite only by a truthy (present,
non-empty) string. -/
def setIfTruthy (old : String) : Option String → String
  | none => old
  | some v => if v = "" then old else v

/-- `if (v !== undefined) session.field = v`: overwrite whenever the key is
present. -/
def setIfPresent {α : Type} (old : α) : Option α → α
  | none => old
  | some v => v

/-- The field-merge block of the update handler. -/
def updateSessionFields (s : Session) (b : UpdateBody) : Session :=
  { userId := s.userId
    patientId := setIfTruthy s.patientId b.patientId
    patientName := setIfTruthy s.patientName b.patientName
    date := setIfTruthy s.date b.date
    time := setIfTruthy s.time b.time
    notes := setIfPresent s.notes b.notes
    completed := setIfPresent s.completed b.completed
    cancelled := setIfPresent s.cancelled b.cancelled
    amount := setIfPresent s.amount b.amount }

/-! ### Concrete fixtures used to instantiate theorems on small inputs -/

/-- A stored patient owned by `"u1"`. -/
def pFix : Patient :=
  { id := "p1", userId := "u1", name := "Bob", contactNumber := none
    age := 30, gender := "male" }

/-- A creation body with `amount = 0` and the optional keys absent. -/
def bFix : SessionBody :=
  { patientId := "p1", patientName := "Bob", date := "2024-01-01"
    time := "10:00", notes := none, completed := none, cancelled := none
    amount := some 0 }

/-- An update body mixing falsy-present, absent, and present keys. -/
def bUpd : UpdateBody :=
  { patientId := some "", patientName := none, date := some "2026-02-02"
    time := none, notes := some "", completed := some false
    cancelled := none, amount := some none }


/-- The session of the specification scenario:
`date="2024-03-15", completed=true, amount=500`. -/
def marchSession : Session :=
  { userId := "u1", patientId := "p1", patientName := "Pat"
    date := "2024-03-15", time := "10:00", notes := ""
    completed := true, cancelled := false, amount := some 500 }



/-- A cancelled stored session, distinguishing the absent and `"false"`
settings of `includeCancelled`. -/
def sCancelledStored : Session :=
  { userId := "u1", patientId := "p1", patientName := "Pat"
    date := "2024-02-02", time := "08:00", notes := ""
    completed := false, cancelled := true, amount := none }


/-- A session cancelled while still pending, dated after `"2025-01-01"`. -/
def sCancelledFuture : Session :=
  { userId := "u1", patientId := "p1", patientName := "Pat"
    date := "2025-06-01", time := "09:00", notes := ""
    completed := false, cancelled := true, amount := some 100 }

/-- A completed-and-cancelled session dated after `"2025-01-01"`. -/
def sDoneCancelledFuture : Session :=
  { userId := "u1", patientId := "p1", patientName := "Pat"
    date := "2025-06-01", time := "09:00", notes := ""
    completed := true, cancelled := true, amount := some 100 }

/-- A completed session dated `"2025-01-01"`. -/
def sOnToday : Session :=
  { userId := "u1", patientId := "p1", patientName := "Pat"
    date := "2025-01-01", time := "11:30", notes := ""
    completed := true, cancelled := false, amount := some 300 }

/-! ### Generic facts about the filtered-and-sorted views -/

theorem pastLE_trans (a b c : Session) (h1 : pastLE a b) (h2 : pastLE b c) :
    pastLE a c := lexLE_trans _ _ _ h1 h2

theorem pastLE_total (a b : Session) : pastLE a b || pastLE b a := lexLE_total _ _

theorem dtLE_trans (a b c : Session) (h1 : dtLE a b) (h2 : dtLE b c) :
    dtLE a c := lexLE_trans _ _ _ h1 h2

theorem dtLE_total (a b : Session) : dtLE a b || dtLE b a := lexLE_total _ _

theorem keyLE_trans (a b c : Nat × Nat) (h1 : keyLE a b) (h2 : keyLE b c) :
    keyLE a c := lexLE_trans _ _ _ h1 h2

theorem keyLE_total (a b : Nat × Nat) : keyLE a b || keyLE b a := lexLE_total _ _

/-- Concrete string comparisons kernel-evaluate at the character-list level. -/
theorem strLt_of_toList {s t : String} (h : s.toList < t.toList) : s < t :=
  String.lt_iff_toList_lt.mpr h

theorem strLt_iff {a b : String} : strLt a b = true ↔ a < b := by
  rw [strLt, decide_eq_true_eq, String.lt_iff_toList_lt]

theorem strLe_iff {a b : String} : strLe a b = true ↔ a ≤ b := by
  rw [strLe, decide_eq_true_eq, String.le_iff_toList_le]

theorem mem_filterSort {db : List Session} {q : Session → Bool}
    {le : Session → Session → Bool} {s : Session} :
    s ∈ (db.filter q).mergeSort le ↔ s ∈ db ∧ q s := by
  rw [List.mem_mergeSort, List.mem_filter]

/-- C1.  For every user and evaluation date `today`, the default Past view
returns exactly the user's sessions with `completed = true` (any date) or
with `date < today ∧ completed = false ∧ cancelled = false`, ordered by
date descending then time ascending. -/
theorem pastDefault_exact_and_ordered (db : List Session) (uid today : String) :
    (getPastSessions db uid today none).Perm
      (db.filter (pastDefaultMatch uid today)) ∧
    (∀ s : Session, s ∈ getPastSessions db uid today none ↔
      s ∈ db ∧ s.userId = uid ∧
        (s.completed = true ∨
          (s.date < today ∧ s.completed = false ∧ s.cancelled = false))) ∧
    (getPastSessions db uid today none).Pairwise
      (fun a b => b.date < a.date ∨ (a.date = b.date ∧ a.time ≤ b.time)) := by
  refine ⟨?_, ?_, ?_⟩
  · simpa [getPastSessions] using
      List.mergeSort_perm (db.filter (pastDefaultMatch uid today)) pastLE
  · intro s
    rw [show getPastSessions db uid today none =
        (db.filter (pastDefaultMatch uid today)).mergeSort pastLE from rfl,
      mem_filterSort]
    simp only [pastDefaultMatch, Bool.and_eq_true, Bool.or_eq_true,
      Bool.not_eq_true', decide_eq_true_eq, strLt_iff]
    tauto
  · have hs : ((db.filter (pastDefaultMatch uid today)).mergeSort pastLE).Pairwise
        (fun a b => pastLE a b) :=
      List.sorted_mergeSort (fun a b c => pastLE_trans a b c) pastLE_total _
    refine List.Pairwise.imp ?_ hs
    intro a b h
    simp only [pastLE, lexLE, Bool.or_eq_true, Bool.and_eq_true,
      decide_eq_true_eq, OrderDual.toDual_lt_toDual] at h
    rcases h with h | ⟨h, h'⟩
    · exact Or.inl h
    · exact Or.inr ⟨(OrderDual.toDual_inj.mp h), h'⟩

/-- C5 counterexample.  The claim quantifies over every session with
`cancelled = true` dated strictly after today; but a session that is both
completed and cancelled and dated in the future is a member of the default
Past view (through its `completed = true` clause), so the claim as stated
fails at this input. -/
theorem cancelledFutureSession_in_defaultPast :
    sDoneCancelledFuture.cancelled = true ∧
    ("2025-01-01" : String) < sDoneCancelledFuture.date ∧
    sDoneCancelledFuture ∈
      getPastSessions [sDoneCancelledFuture] "u1" "2025-01-01" none := by
  refine ⟨rfl, strLt_of_toList (by decide), ?_⟩
  rw [show getPastSessions [sDoneCancelledFuture] "u1" "2025-01-01" none =
      (([sDoneCancelledFuture]).filter (pastDefaultMatch "u1" "2025-01-01")).mergeSort
        pastLE from rfl, mem_filterSort]
  exact ⟨List.mem_singleton_self _, by decide⟩

/-- C5 (amended).  For every user and evaluation date, a *pending* session
that was cancelled (`cancelled = true`, `completed = false`) and whose date
is strictly after today is a member of neither the Upcoming view nor the
default Past view. -/
theorem cancelledFutureSession_invisible (db : List Session)
    (uid today tomorrow : String) (s : Session)
    (hc : s.cancelled = true) (hnc : s.completed = false)
    (hf : today < s.date) :
    s ∉ getUpcomingSessions db uid tomorrow ∧
    s ∉ getPastSessions db uid today none := by
  constructor
  · intro hmem
    rw [show getUpcomingSessions db uid tomorrow =
        (db.filter (upcomingMatch uid tomorrow)).mergeSort dtLE from rfl,
      mem_filterSort] at hmem
    simp [upcomingMatch, hc] at hmem
  · intro hmem
    rw [show getPastSessions db uid today none =
        (db.filter (pastDefaultMatch uid today)).mergeSort pastLE from rfl,
      mem_filterSort] at hmem
    simp [pastDefaultMatch, hc, hnc] at hmem

/-- Witness for the amended C5 theorem at a concrete cancelled, pending,
future-dated session. -/
theorem cancelledFutureSession_invisible_witness :
    sCancelledFuture.cancelled = true ∧ sCancelledFuture.completed = false ∧
    ("2025-01-01" : String) < sCancelledFuture.date ∧
    (sCancelledFuture ∉ getUpcomingSessions [sCancelledFuture] "u1" "2025-01-02" ∧
     sCancelledFuture ∉ getPastSessions [sCancelledFuture] "u1" "2025-01-01" none) :=
  ⟨rfl, rfl, strLt_of_toList (by decide),
    cancelledFutureSession_invisible [sCancelledFuture] "u1" "2025-01-01"
      "2025-01-02" sCancelledFuture rfl rfl (strLt_of_toList (by decide))⟩

/-- C6.  For every user, a session of that user whose date equals today is in
the Today view regardless of its flags, is never in the Upcoming view (the
handler computes `tomorrow` as the day after `today`, hence `today <
tomorrow` as ISO strings), and is in the default Past view iff it is
completed. -/
theorem todaySession_classification (db : List Session)
    (uid today tomorrow : String) (s : Session)
    (ht : today < tomorrow) (hdb : s ∈ db) (hu : s.userId = uid)
    (hd : s.date = today) :
    s ∈ getTodaySessions db uid today ∧
    s ∉ getUpcomingSessions db uid tomorrow ∧
    (s ∈ getPastSessions db uid today none ↔ s.completed = true) := by
  refine ⟨?_, ?_, ?_⟩
  · rw [show getTodaySessions db uid today =
        (db.filter (todayMatch uid today)).mergeSort timeLE from rfl,
      mem_filterSort]
    exact ⟨hdb, by simp [todayMatch, hu, hd]⟩
  · intro hmem
    rw [show getUpcomingSessions db uid tomorrow =
        (db.filter (upcomingMatch uid tomorrow)).mergeSort dtLE from rfl,
      mem_filterSort] at hmem
    rcases hmem with ⟨-, hq⟩
    simp only [upcomingMatch, Bool.and_eq_true, decide_eq_true_eq,
      strLe_iff] at hq
    have h2 : tomorrow ≤ s.date := by tauto
    rw [hd] at h2
    exact absurd h2 (not_le.mpr ht)
  · rw [show getPastSessions db uid today none =
        (db.filter (pastDefaultMatch uid today)).mergeSort pastLE from rfl,
      mem_filterSort]
    constructor
    · rintro ⟨-, hq⟩
      simp only [pastDefaultMatch, Bool.and_eq_true, Bool.or_eq_true,
        Bool.not_eq_true', decide_eq_true_eq, strLt_iff] at hq
      rcases hq.2 with hcomp | hrest
      · exact hcomp
      · have hlt : s.date < today := by tauto
        rw [hd] at hlt
        exact absurd hlt (lt_irrefl today)
    · intro hcomp
      exact ⟨hdb, by simp [pastDefaultMatch, hu, hcomp]⟩

/-- Witness for the C6 theorem at a concrete completed session dated today. -/
theorem todaySession_classification_witness :
    ("2025-01-01" : String) < "2025-01-02" ∧
    (sOnToday ∈ getTodaySessions [sOnToday] "u1" "2025-01-01" ∧
     sOnToday ∉ getUpcomingSessions [sOnToday] "u1" "2025-01-02" ∧
     (sOnToday ∈ getPastSessions [sOnToday] "u1" "2025-01-01" none ↔
       sOnToday.completed = true)) :=
  ⟨strLt_of_toList (by decide),
    todaySession_classification [sOnToday] "u1" "2025-01-01" "2025-01-02"
      sOnToday (strLt_of_toList (by decide)) (List.mem_singleton_self _) rfl rfl⟩

/-- C2 counterexample.  With `includeCancelled` absent the built query has no
cancellation constraint, while `includeCancelled = "false"` constrains
`cancelled = false`; a stored cancelled session therefore matches the first
query but not the second, so the two result sets differ. -/
theorem filterQuery_absent_ne_false_on_cancelled :
    matchesQuery (buildSessionFilterQuery "u1" noFilters) sCancelledStored = true ∧
    matchesQuery (buildSessionFilterQuery "u1"
      { noFilters with includeCancelled := some "false" }) sCancelledStored = false := by
  exact ⟨by decide, by decide⟩

/-- C2 (amended).  For every user, stored session and combination of the
other filter parameters, the query built with `includeCancelled` absent and
the one built with `includeCancelled = "true"` match exactly the same
sessions (indeed they are the same emitted query). -/
theorem filterQuery_absent_eq_true (userId : String) (f : SessionFilters)
    (s : Session) :
    matchesQuery (buildSessionFilterQuery userId
      { f with includeCancelled := none }) s =
    matchesQuery (buildSessionFilterQuery userId
      { f with includeCancelled := some "true" }) s :=
  congrArg (fun q => matchesQuery q s)
    (show buildSessionFilterQuery userId { f with includeCancelled := none } =
      buildSessionFilterQuery userId { f with includeCancelled := some "true" }
      from rfl)

/-- The uncast owner clause of the aggregation `$match` never holds: a BSON
string equals no ObjectId. -/
theorem earningsMatch_false (uid : String) (startDate endDate : Option String)
    (s : Session) : earningsMatch uid startDate endDate s = false := by
  simp [earningsMatch, storedUserId]

/-- C3 (code bug).  The claim describes the intended grouped monthly
summary, but `GET /earnings/monthly` runs `buildEarningsPipeline` through
`Session.aggregate`, which Mongoose does not cast: the `$match` compares
the JWT string `req.userId` to the ObjectId-typed stored `userId` and
matches no document, so the endpoint returns an empty `monthlyEarnings`
list for every store, user and date range — in particular for a store
holding a completed `amount = 500` session of the requesting user, where
the claim expects a `totalEarnings = 500, sessionCount = 1` group. -/
theorem monthlyEarnings_always_empty :
    (∀ (db : List Session) (uid : String) (startDate endDate : Option String),
      monthlyEarnings db uid startDate endDate = []) ∧
    monthlyEarnings [marchSession] "u1" none none = [] := by
  have hf : ∀ (db : List Session) (uid : String) (sd ed : Option String),
      monthlyEarnings db uid sd ed = [] := by
    intro db uid sd ed
    have hq : db.filter (earningsMatch uid sd ed) = [] := by
      rw [List.filter_eq_nil]
      intro a _
      simp [earningsMatch_false]
    show ((((db.filter (earningsMatch uid sd ed)).map monthKey).dedup).mergeSort
        keyLE).map (groupFor (db.filter (earningsMatch uid sd ed))) = []
    rw [hq]
    simp
  exact ⟨hf, hf _ _ _ _⟩

/-- Positive present amount, in claim language. -/
theorem amountPos_iff {o : Option Int} :
    amountPos o = true ↔ ∃ a : Int, o = some a ∧ 0 < a := by
  cases o <;> simp [amountPos]

/-- C4.  The single-month detail selects exactly the user's completed,
positively-amounted sessions whose date lies between the first and the last
calendar day of the month inclusive, sorts them by date then time
ascending, and returns the sum of their amounts and their number; in
particular the stored `2024-03-15` session yields `totalEarnings = 500`,
`sessionCount = 1` and appears in the list for March 2024. -/
theorem monthlyDetail_spec (db : List Session) (uid : String)
    (year month : Nat) (h1 : 1 ≤ month) (h2 : month ≤ 12) :
    ((monthlyDetail db uid year month).sessions).Perm
      (db.filter (detailMatch uid (isoDate year month 1)
        (isoDate year month (daysInMonth year month)))) ∧
    (∀ s : Session, s ∈ (monthlyDetail db uid year month).sessions ↔
      s ∈ db ∧ s.userId = uid ∧ s.completed = true ∧
        (∃ a : Int, s.amount = some a ∧ 0 < a) ∧
        isoDate year month 1 ≤ s.date ∧
        s.date ≤ isoDate year month (daysInMonth year month)) ∧
    ((monthlyDetail db uid year month).sessions).Pairwise
      (fun a b => a.date < b.date ∨ (a.date = b.date ∧ a.time ≤ b.time)) ∧
    (monthlyDetail db uid year month).totalEarnings =
      ((db.filter (detailMatch uid (isoDate year month 1)
        (isoDate year month (daysInMonth year month)))).map
          (fun s => s.amount.getD 0)).sum ∧
    (monthlyDetail db uid year month).sessionCount =
      (db.filter (detailMatch uid (isoDate year month 1)
        (isoDate year month (daysInMonth year month)))).length ∧
    ((monthlyDetail [marchSession] "u1" 2024 3).totalEarnings = 500 ∧
     (monthlyDetail [marchSession] "u1" 2024 3).sessionCount = 1 ∧
     marchSession ∈ (monthlyDetail [marchSession] "u1" 2024 3).sessions) := by
  have hfil : [marchSession].filter (detailMatch "u1" (isoDate 2024 3 1)
      (isoDate 2024 3 (daysInMonth 2024 3))) = [marchSession] := by decide
  have hses : (monthlyDetail [marchSession] "u1" 2024 3).sessions =
      [marchSession] := by
    show ([marchSession].filter (detailMatch "u1" (isoDate 2024 3 1)
      (isoDate 2024 3 (daysInMonth 2024 3)))).mergeSort dtLE = [marchSession]
    rw [hfil, List.mergeSort_singleton]
  refine ⟨?_, ?_, ?_, ?_, ?_, ?_, ?_, ?_⟩
  · exact List.mergeSort_perm _ dtLE
  · intro s
    rw [show (monthlyDetail db uid year month).sessions =
        (db.filter (detailMatch uid (isoDate year month 1)
          (isoDate year month (daysInMonth year month)))).mergeSort dtLE from rfl,
      mem_filterSort]
    simp only [detailMatch, Bool.and_eq_true, decide_eq_true_eq, strLe_iff,
      amountPos_iff]
    tauto
  · have hs : ((db.filter (detailMatch uid (isoDate year month 1)
        (isoDate year month (daysInMonth year month)))).mergeSort dtLE).Pairwise
        (fun a b => dtLE a b) :=
      List.sorted_mergeSort (fun a b c => dtLE_trans a b c) dtLE_total _
    refine List.Pairwise.imp ?_ hs
    intro a b h
    simp only [dtLE, lexLE, Bool.or_eq_true, Bool.and_eq_true,
      decide_eq_true_eq] at h
    exact h
  · exact ((List.mergeSort_perm _ dtLE).map (fun s => s.amount.getD 0)).sum_eq
  · exact List.length_mergeSort _
  · show ((monthlyDetail [marchSession] "u1" 2024 3).sessions.map
        (fun s => s.amount.getD 0)).sum = 500
    rw [hses]; decide
  · show ((monthlyDetail [marchSession] "u1" 2024 3).sessions).length = 1
    rw [hses]
    rfl
  · rw [hses]; exact List.mem_singleton_self _

/-- Witness for C4 at the specification scenario. -/
theorem monthlyDetail_spec_witness :
    (1 ≤ 3 ∧ 3 ≤ 12) ∧
    ((monthlyDetail [marchSession] "u1" 2024 3).totalEarnings = 500 ∧
     (monthlyDetail [marchSession] "u1" 2024 3).sessionCount = 1 ∧
     marchSession ∈ (monthlyDetail [marchSession] "u1" 2024 3).sessions) :=
  ⟨⟨by decide, by decide⟩,
    (monthlyDetail_spec [marchSession] "u1" 2024 3 (by decide)
      (by decide)).2.2.2.2.2⟩

/-- C7.  Positionally, the bulk close rewrites exactly the stored sessions
with this patient, this user, `completed = false` and `cancelled = false`,
setting `cancelled := true` and `amount := 0` and keeping every other field;
every other session (already terminal, other patient, or other user) is
returned unchanged; and the reported count is the number of matching
sessions. -/
theorem closeAllUpcoming_spec (db : List Session) (pid uid : String) :
    (∀ i : Nat, ((closeAllUpcomingSessions db pid uid).1)[i]? =
      (db[i]?).map (fun s =>
        if s.patientId = pid ∧ s.userId = uid ∧
            s.completed = false ∧ s.cancelled = false
        then { s with cancelled := true, amount := some 0 }
        else s)) ∧
    (closeAllUpcomingSessions db pid uid).2 =
      (db.filter (openForPatient pid uid)).length := by
  constructor
  · intro i
    show (db.map (fun s => if openForPatient pid uid s
        then { s with cancelled := true, amount := some 0 } else s))[i]? = _
    rw [List.getElem?_map]
    cases db[i]? with
    | none => rfl
    | some s =>
      simp only [Option.map_some']
      congr 1
      refine if_congr ?_ rfl rfl
      simp only [openForPatient, Bool.and_eq_true, decide_eq_true_eq,
        Bool.not_eq_true']
      tauto
  · show (db.filter (fun s => openForPatient pid uid s &&
        decide (({ s with cancelled := true, amount := some 0 } : Session) ≠ s))).length =
      (db.filter (openForPatient pid uid)).length
    congr 1
    refine List.filter_congr ?_
    intro s _
    cases h : openForPatient pid uid s with
    | false => simp
    | true =>
      simp only [Bool.true_and]
      rw [decide_eq_true_eq]
      intro heq
      have hc : s.cancelled = false := by
        simp only [openForPatient, Bool.and_eq_true, Bool.not_eq_true'] at h
        tauto
      have h2 : (true : Bool) = s.cancelled := congrArg Session.cancelled heq
      rw [hc] at h2
      exact absurd h2 (by decide)

/-- A string that `parseInt` can read passes the required-field check. -/
theorem missingRequired_false_of_parse {s : String} {n : Int}
    (h : parseIntJS s = some n) : missingRequired s = false := by
  have ht : jsTrim s ≠ [] := by
    intro he
    simp [parseIntJS, he, parseSigned] at h
  have hs : s ≠ "" := by
    intro he
    exact ht (by rw [he]; rfl)
  simp [missingRequired, hs, ht]

/-- A valid gender value passes the required-field check. -/
theorem missingRequired_false_of_gender {g : String}
    (h : isValidGender g = true) : missingRequired g = false := by
  simp only [isValidGender, Bool.or_eq_true, decide_eq_true_eq] at h
  rcases h with (h | h) | h <;> subst h <;> decide

/-- `isValidAge` in claim language. -/
theorem isValidAge_iff {age : String} :
    isValidAge age = true ↔
      ∃ n : Int, parseIntJS age = some n ∧ 0 ≤ n ∧ n ≤ 150 := by
  unfold isValidAge
  cases h : parseIntJS age <;> simp [h]

/-- The create-patient route succeeds exactly when every validation step
passes. -/
theorem createPatient_ok_iff (db : List Patient) (uid newId : String)
    (b : PatientBody) :
    (createPatientHandler db uid newId b).2 = none ↔
      (missingRequired b.name = false ∧ missingRequired b.age = false ∧
       missingRequired b.gender = false ∧ isValidAge b.age = true ∧
       isValidGender b.gender = true) := by
  cases h1 : missingRequired b.name <;> cases h2 : missingRequired b.age <;>
    cases h3 : missingRequired b.gender <;> cases h4 : isValidAge b.age <;>
      cases h5 : isValidGender b.gender <;>
        simp [createPatientHandler, h1, h2, h3, h4, h5]

/-- C8.  With a well-formed name, patient creation succeeds iff the age
parses to an integer in `[0, 150]` and the gender is one of the three
enumerated values; `age = "150", gender = "other"` is accepted at the
boundary, and `age = "151"` is always rejected with a validation error and
no change to the stored patients. -/
theorem patientValidation_spec :
    (∀ (db : List Patient) (uid newId : String) (b : PatientBody),
      missingRequired b.name = false →
      ((createPatientHandler db uid newId b).2 = none ↔
        ((∃ n : Int, parseIntJS b.age = some n ∧ 0 ≤ n ∧ n ≤ 150) ∧
         (b.gender = "male" ∨ b.gender = "female" ∨ b.gender = "other")))) ∧
    ((createPatientHandler [] "u1" "pid1"
        { name := "Alice", contactNumber := none, age := "150",
          gender := "other" }).2 = none) ∧
    (∀ (db : List Patient) (uid newId name : String)
        (contact : Option String) (gender : String),
      (createPatientHandler db uid newId
        { name := name, contactNumber := contact, age := "151",
          gender := gender }).2 ≠ none ∧
      (createPatientHandler db uid newId
        { name := name, contactNumber := contact, age := "151",
          gender := gender }).1 = db) := by
  have ha151 : isValidAge "151" = false := by decide
  have hm151 : missingRequired "151" = false := by decide
  refine ⟨?_, by decide, ?_⟩
  · intro db uid newId b hname
    rw [createPatient_ok_iff]
    constructor
    · rintro ⟨-, -, -, h4, h5⟩
      refine ⟨isValidAge_iff.mp h4, ?_⟩
      simp only [isValidGender, Bool.or_eq_true, decide_eq_true_eq] at h5
      tauto
    · rintro ⟨hage, hgen⟩
      have h4 : isValidAge b.age = true := isValidAge_iff.mpr hage
      have h5 : isValidGender b.gender = true := by
        simp only [isValidGender, Bool.or_eq_true, decide_eq_true_eq]
        tauto
      obtain ⟨n, hn, -⟩ := hage
      exact ⟨hname, missingRequired_false_of_parse hn,
        missingRequired_false_of_gender h5, h4, h5⟩
  · intro db uid newId name contact gender
    constructor
    · intro hok
      have h := (createPatient_ok_iff db uid newId
        { name := name, contactNumber := contact, age := "151",
          gender := gender }).mp hok
      rw [ha151] at h
      exact absurd h.2.2.2.1 (by decide)
    · cases h1 : missingRequired name <;> cases h3 : missingRequired gender <;>
        simp [createPatientHandler, h1, h3, hm151, ha151]

/-- Witness for C8: a concrete well-formed body is accepted through the
general iff. -/
theorem patientValidation_spec_witness :
    missingRequired "Bob" = false ∧
    (createPatientHandler [] "u9" "p9"
      { name := "Bob", contactNumber := none, age := "7",
        gender := "male" }).2 = none :=
  ⟨by decide,
    (patientValidation_spec.1 [] "u9" "p9"
      { name := "Bob", contactNumber := none, age := "7", gender := "male" }
      (by decide)).mpr
      ⟨⟨7, by decide, by decide, by decide⟩, Or.inl rfl⟩⟩

/-- The document constructor applies the creation defaults. -/
theorem sessionDocOf_defaults (uid : String) (b : SessionBody) :
    (((b.amount = none ∨ b.amount = some 0) →
        (sessionDocOf uid b).amount = none) ∧
      (b.notes = none → (sessionDocOf uid b).notes = "") ∧
      (b.completed = none → (sessionDocOf uid b).completed = false) ∧
      (b.cancelled = none → (sessionDocOf uid b).cancelled = false)) := by
  refine ⟨?_, ?_, ?_, ?_⟩
  · rintro (h | h) <;> simp [sessionDocOf, jsOrNull, h]
  · intro h; simp [sessionDocOf, jsOrEmpty, h]
  · intro h; simp [sessionDocOf, jsOrFalse, h]
  · intro h; simp [sessionDocOf, jsOrFalse, h]

/-- C9.  Whenever a creation request (single or bulk) stores a session, a
falsy supplied amount (absent, null or `0`) is stored as `null`, omitted
notes become `""`, and omitted `completed`/`cancelled` become `false`. -/
theorem sessionCreation_defaults :
    (∀ (patients : List Patient) (uid : String) (b : SessionBody)
        (s : Session),
      createSessionHandler patients uid b = Except.ok s →
      (((b.amount = none ∨ b.amount = some 0) → s.amount = none) ∧
       (b.notes = none → s.notes = "") ∧
       (b.completed = none → s.completed = false) ∧
       (b.cancelled = none → s.cancelled = false))) ∧
    (∀ (patients : List Patient) (uid : String) (bs : List SessionBody)
        (l : List Session),
      createSessionsBulkHandler patients uid bs = Except.ok l →
      ∀ (i : Nat) (b : SessionBody), bs[i]? = some b →
        ∃ s : Session, l[i]? = some s ∧
          ((b.amount = none ∨ b.amount = some 0) → s.amount = none) ∧
          (b.notes = none → s.notes = "") ∧
          (b.completed = none → s.completed = false) ∧
          (b.cancelled = none → s.cancelled = false)) := by
  constructor
  · intro patients uid b s h
    have hs : s = sessionDocOf uid b := by
      unfold createSessionHandler at h
      split at h
      · simp at h
      · split at h
        · simp at h
        · injection h with h
          exact h.symm
    rw [hs]
    exact sessionDocOf_defaults uid b
  · intro patients uid bs l h i b hb
    have hl : l = bs.map (sessionDocOf uid) := by
      unfold createSessionsBulkHandler at h
      split at h
      · simp at h
      · split at h
        · simp at h
        · split at h
          · simp at h
          · injection h with h
            exact h.symm
    refine ⟨sessionDocOf uid b, ?_, sessionDocOf_defaults uid b⟩
    rw [hl, List.getElem?_map, hb, Option.map_some']

/-- Witness for C9: the concrete body `bFix` (amount `0`, optional keys
absent) is stored with `null` amount, empty notes and cleared flags. -/
theorem sessionCreation_defaults_witness :
    createSessionHandler [pFix] "u1" bFix = Except.ok (sessionDocOf "u1" bFix) ∧
    ((sessionDocOf "u1" bFix).amount = none ∧
     (sessionDocOf "u1" bFix).notes = "" ∧
     (sessionDocOf "u1" bFix).completed = false ∧
     (sessionDocOf "u1" bFix).cancelled = false) := by
  have h : createSessionHandler [pFix] "u1" bFix =
      Except.ok (sessionDocOf "u1" bFix) := rfl
  have hd := sessionCreation_defaults.1 [pFix] "u1" bFix
    (sessionDocOf "u1" bFix) h
  exact ⟨h, hd.1 (Or.inr rfl), hd.2.1 rfl, hd.2.2.1 rfl, hd.2.2.2 rfl⟩

/-- C10.  The update merge overwrites `patientId`, `patientName`, `date` and
`time` only by truthy values (a present empty string leaves them
unchanged), overwrites `notes`, `completed`, `cancelled` and `amount`
whenever the key is present (even by `""`, `false`, `0` or `null`), and
leaves every absent key's field — and the owner — unchanged. -/
theorem sessionUpdate_merge (s : Session) (b : UpdateBody) :
    ((updateSessionFields s b).userId = s.userId) ∧
    ((b.patientId = none ∨ b.patientId = some "") →
      (updateSessionFields s b).patientId = s.patientId) ∧
    (∀ v : String, b.patientId = some v → v ≠ "" →
      (updateSessionFields s b).patientId = v) ∧
    ((b.patientName = none ∨ b.patientName = some "") →
      (updateSessionFields s b).patientName = s.patientName) ∧
    (∀ v : String, b.patientName = some v → v ≠ "" →
      (updateSessionFields s b).patientName = v) ∧
    ((b.date = none ∨ b.date = some "") →
      (updateSessionFields s b).date = s.date) ∧
    (∀ v : String, b.date = some v → v ≠ "" →
      (updateSessionFields s b).date = v) ∧
    ((b.time = none ∨ b.time = some "") →
      (updateSessionFields s b).time = s.time) ∧
    (∀ v : String, b.time = some v → v ≠ "" →
      (updateSessionFields s b).time = v) ∧
    (b.notes = none → (updateSessionFields s b).notes = s.notes) ∧
    (∀ v : String, b.notes = some v → (updateSessionFields s b).notes = v) ∧
    (b.completed = none → (updateSessionFields s b).completed = s.completed) ∧
    (∀ v : Bool, b.completed = some v →
      (updateSessionFields s b).completed = v) ∧
    (b.cancelled = none → (updateSessionFields s b).cancelled = s.cancelled) ∧
    (∀ v : Bool, b.cancelled = some v →
      (updateSessionFields s b).cancelled = v) ∧
    (b.amount = none → (updateSessionFields s b).amount = s.amount) ∧
    (∀ v : Option Int, b.amount = some v →
      (updateSessionFields s b).amount = v) := by
  refine ⟨rfl, ?_, ?_, ?_, ?_, ?_, ?_, ?_, ?_, ?_, ?_, ?_, ?_, ?_, ?_, ?_, ?_⟩
  · rintro (h | h) <;> simp [updateSessionFields, setIfTruthy, h]
  · intro v hv hne; simp [updateSessionFields, setIfTruthy, hv, hne]
  · rintro (h | h) <;> simp [updateSessionFields, setIfTruthy, h]
  · intro v hv hne; simp [updateSessionFields, setIfTruthy, hv, hne]
  · rintro (h | h) <;> simp [updateSessionFields, setIfTruthy, h]
  · intro v hv hne; simp [updateSessionFields, setIfTruthy, hv, hne]
  · rintro (h | h) <;> simp [updateSessionFields, setIfTruthy, h]
  · intro v hv hne; simp [updateSessionFields, setIfTruthy, hv, hne]
  · intro h; simp [updateSessionFields, setIfPresent, h]
  · intro v hv; simp [updateSessionFields, setIfPresent, hv]
  · intro h; simp [updateSessionFields, setIfPresent, h]
  · intro v hv; simp [updateSessionFields, setIfPresent, hv]
  · intro h; simp [updateSessionFields, setIfPresent, h]
  · intro v hv; simp [updateSessionFields, setIfPresent, hv]
  · intro h; simp [updateSessionFields, setIfPresent, h]
  · intro v hv; simp [updateSessionFields, setIfPresent, hv]

/-- Witness for C10 at a body mixing falsy-present, absent and present
keys. -/
theorem sessionUpdate_merge_witness :
    (updateSessionFields sOnToday bUpd).patientId = sOnToday.patientId ∧
    (updateSessionFields sOnToday bUpd).date = "2026-02-02" ∧
    (updateSessionFields sOnToday bUpd).notes = "" ∧
    (updateSessionFields sOnToday bUpd).completed = false ∧
    (updateSessionFields sOnToday bUpd).cancelled = sOnToday.cancelled ∧
    (updateSessionFields sOnToday bUpd).amount = none := by
  obtain ⟨h1, h2, h3, h4, h5, h6, h7, h8, h9, h10, h11, h12, h13, h14, h15,
    h16, h17⟩ := sessionUpdate_merge sOnToday bUpd
  exact ⟨h2 (Or.inr rfl), h7 "2026-02-02" rfl (by decide), h11 "" rfl,
    h13 false rfl, h14 rfl, h17 none rfl⟩

end Rehabiri
